import Mathlib

/-!
Verification of the testing-library detection engine: a shallow embedding of
the node-shape predicates, the per-file import tracker, the reporting gate,
the specifier resolver and the visitor merger, together with theorems about
the claimed behaviour of each part.

Syntax-tree nodes are embedded as a single recursive record of the fields the
engine actually reads (duck typing in the source becomes optional fields
here); JavaScript runtime behaviour that the source relies on (truthiness,
ToString coercion of undefined, thrown TypeError on member access of
undefined) is made explicit.
-/

/-- JavaScript literal values as stored in a Literal node and read through
typeof checks and ToString coercions. -/
inductive JSVal where
  | str (s : String)
  | num (n : Int)
  | boolV (b : Bool)
  | nullV
  | undefV
deriving Repr, DecidableEq

/-- ToString coercion as applied by the String(x) conversion and by the
string argument coercion of String.prototype.endsWith and RegExp.test. -/
def jsToString : JSVal → String
  | .str s => s
  | .num n => toString n
  | .boolV b => if b then "true" else "false"
  | .nullV => "null"
  | .undefV => "undefined"

/-- ToString coercion of a possibly-undefined string value: an undefined
argument of endsWith is coerced to the text undefined. -/
def jsToStringOpt : Option String → String
  | some s => s
  | none => "undefined"

/-- A syntax-tree node: the type tag plus every field the engine reads.
Fields that a given node kind does not carry are none / empty, mirroring
the duck-typed field probing of the source. The parent field embeds the
upward parent link used by the ascent helpers and the require callback. -/
inductive Node where
  | mk
    (type : String)
    (name : Option String)
    (value : Option JSVal)
    (callee : Option Node)
    (source : Option Node)
    (property : Option Node)
    (key : Option Node)
    (imported : Option Node)
    (localId : Option Node)
    (id : Option Node)
    (specifiers : List Node)
    (arguments : List Node)
    (properties : List Node)
    (parent : Option Node)

def Node.type : Node → String
  | .mk ty _ _ _ _ _ _ _ _ _ _ _ _ _ => ty

def Node.name : Node → Option String
  | .mk _ nm _ _ _ _ _ _ _ _ _ _ _ _ => nm

def Node.value : Node → Option JSVal
  | .mk _ _ v _ _ _ _ _ _ _ _ _ _ _ => v

def Node.callee : Node → Option Node
  | .mk _ _ _ c _ _ _ _ _ _ _ _ _ _ => c

def Node.source : Node → Option Node
  | .mk _ _ _ _ s _ _ _ _ _ _ _ _ _ => s

def Node.property : Node → Option Node
  | .mk _ _ _ _ _ p _ _ _ _ _ _ _ _ => p

def Node.key : Node → Option Node
  | .mk _ _ _ _ _ _ k _ _ _ _ _ _ _ => k

def Node.imported : Node → Option Node
  | .mk _ _ _ _ _ _ _ im _ _ _ _ _ _ => im

def Node.localId : Node → Option Node
  | .mk _ _ _ _ _ _ _ _ l _ _ _ _ _ => l

def Node.id : Node → Option Node
  | .mk _ _ _ _ _ _ _ _ _ i _ _ _ _ => i

def Node.specifiers : Node → List Node
  | .mk _ _ _ _ _ _ _ _ _ _ sp _ _ _ => sp

def Node.arguments : Node → List Node
  | .mk _ _ _ _ _ _ _ _ _ _ _ ar _ _ => ar

def Node.properties : Node → List Node
  | .mk _ _ _ _ _ _ _ _ _ _ _ _ pr _ => pr

def Node.parent : Node → Option Node
  | .mk _ _ _ _ _ _ _ _ _ _ _ _ _ pa => pa

/-! ## Node classifier (node-utils shape predicates)

Each source predicate reads as node && node.type === TAG (or node?.type ===
TAG): a missing (undefined/null) node is a non-match, and so is any other
type tag. The predicates take an Option Node so that the JS calls that can
receive undefined are representable. -/

def isCallExpression (node : Option Node) : Bool :=
  match node with
  | none => false
  | some n => n.type == "CallExpression"

def isIdentifier (node : Option Node) : Bool :=
  match node with
  | none => false
  | some n => n.type == "Identifier"

def isMemberExpression (node : Option Node) : Bool :=
  match node with
  | none => false
  | some n => n.type == "MemberExpression"

def isLiteral (node : Option Node) : Bool :=
  match node with
  | none => false
  | some n => n.type == "Literal"

def isImportSpecifier (node : Option Node) : Bool :=
  match node with
  | none => false
  | some n => n.type == "ImportSpecifier"

def isImportNamespaceSpecifier (node : Option Node) : Bool :=
  match node with
  | none => false
  | some n => n.type == "ImportNamespaceSpecifier"

def isImportDefaultSpecifier (node : Option Node) : Bool :=
  match node with
  | none => false
  | some n => n.type == "ImportDefaultSpecifier"

def isBlockStatement (node : Option Node) : Bool :=
  match node with
  | none => false
  | some n => n.type == "BlockStatement"

def isVariableDeclarator (node : Option Node) : Bool :=
  match node with
  | none => false
  | some n => n.type == "VariableDeclarator"

def isObjectPattern (node : Option Node) : Bool :=
  match node with
  | none => false
  | some n => n.type == "ObjectPattern"

def isProperty (node : Option Node) : Bool :=
  match node with
  | none => false
  | some n => n.type == "Property"

def isJSXAttribute (node : Option Node) : Bool :=
  match node with
  | none => false
  | some n => n.type == "JSXAttribute"

def isObjectExpression (node : Option Node) : Bool :=
  match node with
  | none => false
  | some n => n.type == "ObjectExpression"

def isAwaitExpression (node : Option Node) : Bool :=
  match node with
  | none => false
  | some n => n.type == "AwaitExpression"

def isArrowFunctionExpression (node : Option Node) : Bool :=
  match node with
  | none => false
  | some n => n.type == "ArrowFunctionExpression"

def isReturnStatement (node : Option Node) : Bool :=
  match node with
  | none => false
  | some n => n.type == "ReturnStatement"

def isArrayExpression (node : Option Node) : Bool :=
  match node with
  | none => false
  | some n => n.type == "ArrayExpression"

/-- hasThenProperty: isMemberExpression(node) && isIdentifier(node.property)
&& node.property.name === then. A missing property field is a non-match. -/
def hasThenProperty (node : Option Node) : Bool :=
  isMemberExpression node &&
    (match node with
     | some nd =>
       isIdentifier nd.property &&
         (match nd.property with
          | some p => p.name == some "then"
          | none => false)
     | none => false)

/-- isAwaited composite predicate. -/
def isAwaited (node : Option Node) : Bool :=
  isAwaitExpression node || isArrowFunctionExpression node ||
    isReturnStatement node

/-- findClosestCallExpressionNode: return the node itself when it already is
a call expression, stop with null at the root, otherwise ascend. A child
reached through the parent link is structurally smaller, which grounds
termination. -/
def findClosestCallExpressionNode (node : Node) : Option Node :=
  if isCallExpression (some node) then some node
  else
    match h : node.parent with
    | none => none
    | some p => findClosestCallExpressionNode p
termination_by sizeOf node
decreasing_by
  cases node with
  | mk ty nm v c s pr k im l i sp ar pp pa =>
    simp only [Node.parent] at h
    subst h
    simp
    omega

/-- findClosestCallNode: stop with null at the root BEFORE testing the node
itself, otherwise return the node when it is a call of the given name, else
ascend. -/
def findClosestCallNode (node : Node) (name : String) : Option Node :=
  match h : node.parent with
  | none => none
  | some p =>
    if isCallExpression (some node) && isIdentifier node.callee &&
        (match node.callee with
         | some c => c.name == some name
         | none => false) then
      some node
    else
      findClosestCallNode p name
termination_by sizeOf node
decreasing_by
  cases node with
  | mk ty nm v c s pr k im l i sp ar pp pa =>
    simp only [Node.parent] at h
    subst h
    simp
    omega

/-! ## Regular expressions (host regex engine model)

The filename gate feeds a pattern string to the host regex engine via
String.prototype.match. Patterns are embedded as regex ASTs (parsing of the
pattern text is the host resolution step, out of scope per the spec); the
start and end anchors of a pattern are hoisted into flags of JSRegex, and an
un-anchored side of a search may begin/end anywhere in the string. -/

inductive Regex where
  | emp
  | eps
  | chr (c : Char)
  | anyc
  | cls (cs : List Char)
  | alt (r s : Regex)
  | seq (r s : Regex)
  | star (r : Regex)
  | opt (r : Regex)

/-- Smart sequencing keeping derivative terms small. -/
def Regex.mkSeq : Regex → Regex → Regex
  | .emp, _ => .emp
  | _, .emp => .emp
  | .eps, s => s
  | r, .eps => r
  | r, s => .seq r s

/-- Smart alternation keeping derivative terms small. -/
def Regex.mkAlt : Regex → Regex → Regex
  | .emp, s => s
  | r, .emp => r
  | r, s => .alt r s

def Regex.nullable : Regex → Bool
  | .emp => false
  | .eps => true
  | .chr _ => false
  | .anyc => false
  | .cls _ => false
  | .alt r s => r.nullable || s.nullable
  | .seq r s => r.nullable && s.nullable
  | .star _ => true
  | .opt _ => true

def Regex.deriv : Regex → Char → Regex
  | .emp, _ => .emp
  | .eps, _ => .emp
  | .chr c, a => if a == c then .eps else .emp
  | .anyc, _ => .eps
  | .cls cs, a => if cs.contains a then .eps else .emp
  | .alt r s, a => Regex.mkAlt (r.deriv a) (s.deriv a)
  | .seq r s, a =>
    if r.nullable then
      Regex.mkAlt (Regex.mkSeq (r.deriv a) s) (s.deriv a)
    else
      Regex.mkSeq (r.deriv a) s
  | .star r, a => Regex.mkSeq (r.deriv a) (.star r)
  | .opt r, a => r.deriv a

/-- Whole-word match of a regex against a character list, by derivatives. -/
def rmatch (r : Regex) : List Char → Bool
  | [] => r.nullable
  | c :: cs => rmatch (r.deriv c) cs

/-- A host pattern: hoisted start and end anchors plus the regex body. -/
structure JSRegex where
  ancStart : Bool
  ancEnd : Bool
  body : Regex

/-- Truthiness of fileName.match(pattern): a regular-expression search that
may start the match at any position (unless the pattern anchors its start)
and may stop before the end of the string (unless the pattern anchors its
end). -/
def jsStringMatch (p : JSRegex) (s : String) : Bool :=
  let starts := if p.ancStart then [s.data] else s.data.tails
  starts.any (fun t =>
    let stops := if p.ancEnd then [t] else t.inits
    stops.any (fun u => rmatch p.body u))

/-- Sequencing of a word of literal characters. -/
def rword (s : String) : Regex :=
  s.data.foldr (fun c r => Regex.seq (Regex.chr c) r) Regex.eps

/-- Body of the default filename pattern .*\.(test|spec)\.[jt]sx?
(between the hoisted start and end anchors). -/
def defaultFilenameBody : Regex :=
  .seq (.star .anyc)
    (.seq (.chr '.')
      (.seq (.alt (rword "test") (rword "spec"))
        (.seq (.chr '.')
          (.seq (.cls ['j', 't'])
            (.seq (.chr 's') (.opt (.chr 'x')))))))

/-- DEFAULT_FILENAME_PATTERN, the pattern text ^.*\.(test|spec)\.[jt]sx?$
with both anchors hoisted. -/
def DEFAULT_FILENAME_PATTERN : JSRegex :=
  { ancStart := true, ancEnd := true, body := defaultFilenameBody }

/-! ## String helpers modelling the JS string operations used -/

/-- Truthiness of the test of the literal-substring regex
testing-library against a string: a plain substring search. -/
def stringIncludes (s pat : String) : Bool :=
  s.data.tails.any (fun t => pat.data.isPrefixOf t)

/-- String.prototype.endsWith with the search string already coerced. -/
def jsEndsWith (s pat : String) : Bool :=
  pat.data.isSuffixOf s.data

/-- JS truthiness of a possibly-absent string setting: undefined and the
empty string are both falsy. -/
def jsTruthyOptStr : Option String → Bool
  | none => false
  | some s => !(s == "")

/-! ## Settings, per-file detection state, and the gate -/

/-- The ambient per-run context the enhanced rule closes over: the two
shared settings (the optional custom module name and the optional filename
pattern) plus the name of the file being analyzed. -/
structure RuleEnv where
  customModule : Option String
  filenamePattern : Option JSRegex
  fileName : String

/-- filenamePattern resolution at rule-create time:
settings value if present, else the default pattern. -/
def resolvedFilenamePattern (env : RuleEnv) : JSRegex :=
  env.filenamePattern.getD DEFAULT_FILENAME_PATTERN

/-- The two mutable per-file slots importedTestingLibraryNode and
importedCustomModuleNode, both initially null. -/
structure DetectionState where
  importedTestingLibraryNode : Option Node
  importedCustomModuleNode : Option Node

/-- The fresh state at the start of a file. -/
def DetectionState.initial : DetectionState :=
  { importedTestingLibraryNode := none, importedCustomModuleNode := none }

/-- node.source.value read off an import declaration; a missing value field
reads as undefined. (ImportDeclaration nodes always carry a string-literal
source in a well-formed tree.) -/
def sourceValueJS (n : Node) : JSVal :=
  match n.source with
  | some s => s.value.getD .undefV
  | none => .undefV

/-- getIsTestingLibraryImported: always true when the custom-module setting
is falsy (aggressive reporting); otherwise true iff either slot holds a
node. -/
def getIsTestingLibraryImported (cm : Option String) (st : DetectionState) :
    Bool :=
  if !(jsTruthyOptStr cm) then
    true
  else
    st.importedTestingLibraryNode.isSome ||
      st.importedCustomModuleNode.isSome

/-- getIsValidFilename: truthiness of fileName.match(filenamePattern). -/
def getIsValidFilename (env : RuleEnv) : Bool :=
  jsStringMatch (resolvedFilenamePattern env) env.fileName

/-- canReportErrors: both gate conditions. -/
def canReportErrors (env : RuleEnv) (st : DetectionState) : Bool :=
  getIsTestingLibraryImported env.customModule st && getIsValidFilename env

/-! ## Import tracker callbacks -/

/-- The ImportDeclaration detection callback. Each slot is written only when
still null; the custom-module check coerces an unconfigured (undefined)
custom module name to the text undefined, exactly as
String(...).endsWith(customModule) does at runtime. -/
def importDeclarationCallback (cm : Option String) (st : DetectionState)
    (node : Node) : DetectionState :=
  let st1 :=
    if st.importedTestingLibraryNode.isNone &&
        stringIncludes (jsToString (sourceValueJS node)) "testing-library" then
      { st with importedTestingLibraryNode := some node }
    else
      st
  if st1.importedCustomModuleNode.isNone &&
      jsEndsWith (jsToString (sourceValueJS node)) (jsToStringOpt cm) then
    { st1 with importedCustomModuleNode := some node }
  else
    st1

/-- The require-identifier detection callback (selector CallExpression >
Identifier[name=require]): the node is the require identifier and the
recorded node is its parent call expression. The selector guarantees the
parent exists; an absent parent yields no arguments and no recording. -/
def requireCallback (cm : Option String) (st : DetectionState)
    (node : Node) : DetectionState :=
  let args :=
    match node.parent with
    | some p => p.arguments
    | none => []
  let st1 :=
    if st.importedTestingLibraryNode.isNone &&
        args.any (fun arg =>
          isLiteral (some arg) &&
            (match arg.value with
             | some (.str s) => stringIncludes s "testing-library"
             | _ => false)) then
      { st with importedTestingLibraryNode := node.parent }
    else
      st
  if st1.importedCustomModuleNode.isNone &&
      args.any (fun arg =>
        isLiteral (some arg) &&
          (match arg.value with
           | some (.str s) => jsEndsWith s (jsToStringOpt cm)
           | _ => false)) then
    { st1 with importedCustomModuleNode := node.parent }
  else
    st1

/-- A callback table keyed by selector strings. -/
def lookupTable {α : Type} (tbl : List (String × α)) (k : String) :
    Option α :=
  (tbl.find? (fun e => e.fst == k)).map Prod.snd

/-- detectionInstructions: the import-tracker callback table. -/
def detectionInstructions (cm : Option String) :
    List (String × (DetectionState → Node → DetectionState)) :=
  [("ImportDeclaration", importDeclarationCallback cm),
   ("CallExpression > Identifier[name=\"require\"]", requireCallback cm)]

/-- One dispatch of a traversal event (selector key plus visited node)
through the detection table. -/
def applyDetection (cm : Option String) (st : DetectionState)
    (ev : String × Node) : DetectionState :=
  match lookupTable (detectionInstructions cm) ev.fst with
  | some cb => cb st ev.snd
  | none => st

/-- A whole traversal: the detection callbacks folded over the
traversal-ordered event sequence of one file. -/
def runDetection (cm : Option String) (st : DetectionState)
    (evs : List (String × Node)) : DetectionState :=
  evs.foldl (applyDetection cm) st

/-! ## Specifier resolver -/

/-- Modelled from the spec: the import-declaration shape predicate of the
node classifier (its definition is not among the provided node-utils
sources, which hold the rest of the predicate family); per the Node
Classifier contract it recognizes the static-declaration tag and treats a
missing node or any other shape as a non-match. -/
def isImportDeclaration (node : Option Node) : Bool :=
  match node with
  | none => false
  | some n => n.type == "ImportDeclaration"

/-- The named-specifier search predicate of findImportedUtilSpecifier:
isImportSpecifier(n) && n.imported.name === specifierName. -/
def namedImportMatch (specifierName : String) (n : Node) : Bool :=
  isImportSpecifier (some n) &&
    (match n.imported with
     | some im => im.name == some specifierName
     | none => false)

/-- The destructured-property search predicate of findImportedUtilSpecifier:
isProperty(n) && isIdentifier(n.key) && n.key.name === specifierName. -/
def destructuredKeyMatch (specifierName : String) (n : Node) : Bool :=
  isProperty (some n) && isIdentifier n.key &&
    (match n.key with
     | some k => k.name == some specifierName
     | none => false)

/-- Resolution against a selected import node, branching on its shape. The
result is ok of the found binding (ok none models returning undefined), and
error models a thrown TypeError: the source dereferences the result of a
property search without checking it, and dereferences the parent variable
declarator and its destructuring pattern without checking them. -/
def findSpecifier (node : Node) (specifierName : String) :
    Except String (Option Node) :=
  if isImportDeclaration (some node) then
    match node.specifiers.find? (namedImportMatch specifierName) with
    | some namedExport => .ok (some namedExport)
    | none =>
      .ok (node.specifiers.find? (fun n => isImportNamespaceSpecifier (some n)))
  else
    match node.parent with
    | none => .error "TypeError: reading id of undefined"
    | some requireNode =>
      if isIdentifier requireNode.id then
        .ok requireNode.id
      else
        match requireNode.id with
        | none => .error "TypeError: reading properties of undefined"
        | some destructuring =>
          match destructuring.properties.find?
              (destructuredKeyMatch specifierName) with
          | some property => .ok property.key
          | none => .error "TypeError: reading key of undefined"

/-- findImportedUtilSpecifier: select the custom-module node if recorded,
else the testing-library node, else answer null; then resolve against the
selected node. -/
def findImportedUtilSpecifier (st : DetectionState)
    (specifierName : String) : Except String (Option Node) :=
  let node :=
    match st.importedCustomModuleNode with
    | some n => some n
    | none => st.importedTestingLibraryNode
  match node with
  | none => .ok none
  | some n => findSpecifier n specifierName

/-! ## Visitor merger -/

/-- Key collection of a JS Set built by insertion: first occurrence kept,
in insertion order. -/
def insertionDedup : List String → List String
  | [] => []
  | k :: ks => k :: (insertionDedup ks).filter (fun a => !(a == k))

/-- The union key set of the two callback tables. -/
def mergedKeys {ρ : Type} (det : List (String × (DetectionState → Node → DetectionState)))
    (rule : List (String × (Node → ρ))) : List String :=
  insertionDedup (det.map Prod.fst ++ rule.map Prod.fst)

/-- The merged callback for one key: run the detection callback when the
key has one, then consult the gate on the state as it stands after that,
and only then run the rule callback when the key has one, passing its
result through. -/
def mergedCallback {ρ : Type} (env : RuleEnv)
    (det : List (String × (DetectionState → Node → DetectionState)))
    (rule : List (String × (Node → ρ))) (k : String)
    (st : DetectionState) (node : Node) : DetectionState × Option ρ :=
  let st1 :=
    match lookupTable det k with
    | some dcb => dcb st node
    | none => st
  if canReportErrors env st1 then
    match lookupTable rule k with
    | some rcb => (st1, some (rcb node))
    | none => (st1, none)
  else
    (st1, none)

/-- enhancedRuleInstructions: the merged table over the union key set. -/
def enhancedRuleInstructions {ρ : Type} (env : RuleEnv)
    (det : List (String × (DetectionState → Node → DetectionState)))
    (rule : List (String × (Node → ρ))) :
    List (String × (DetectionState → Node → DetectionState × Option ρ)) :=
  (mergedKeys det rule).map (fun k => (k, mergedCallback env det rule k))

/-! ## Concrete tree fixtures used by the theorems below -/

def identNode (nm : String) : Node :=
  .mk "Identifier" (some nm) none none none none none none none none [] [] [] none

def strLiteralNode (s : String) : Node :=
  .mk "Literal" none (some (.str s)) none none none none none none none [] [] [] none

def importDeclNode (src : String) (specs : List Node) : Node :=
  .mk "ImportDeclaration" none none none (some (strLiteralNode src)) none none none none
    none specs [] [] none

def importSpecifierNode (importedName localName : String) : Node :=
  .mk "ImportSpecifier" none none none none none none (some (identNode importedName))
    (some (identNode localName)) none [] [] [] none

def namespaceSpecifierNode (localName : String) : Node :=
  .mk "ImportNamespaceSpecifier" none none none none none none none
    (some (identNode localName)) none [] [] [] none

def propertyNode (keyName : String) : Node :=
  .mk "Property" none none none none none (some (identNode keyName)) none none none
    [] [] [] none

def objectPatternNode (props : List Node) : Node :=
  .mk "ObjectPattern" none none none none none none none none none [] [] props none

def variableDeclaratorNode (idN : Node) : Node :=
  .mk "VariableDeclarator" none none none none none none none none (some idN) [] [] [] none

/-- A dynamic-load call expression whose enclosing variable declarator binds
the given target. -/
def dynamicLoadCallNode (idN : Node) : Node :=
  .mk "CallExpression" none none none none none none none none none [] []
    [] (some (variableDeclaratorNode idN))

/-- The require identifier node as matched by the selector, with its parent
call expression carrying the given arguments. -/
def requireIdentifierNode (callArgs : List Node) : Node :=
  .mk "Identifier" (some "require") none none none none none none none none [] [] []
    (some (.mk "CallExpression" none none (some (identNode "require")) none none none
      none none none [] callArgs [] none))

/-- A node of a shape the classifier does not recognize, also missing every
optional field. -/
def chimeraNode : Node :=
  .mk "Chimera" none none none none none none none none none [] [] [] none

/-- A parentless call expression whose callee is the identifier named
doSomething. -/
def rootCallNode : Node :=
  .mk "CallExpression" none none (some (identNode "doSomething")) none none none none
    none none [] [] [] none

/-- The recognized type tags of the shape-predicate family. -/
def recognizedTypeTags : List String :=
  ["CallExpression", "Identifier", "MemberExpression", "Literal", "ImportSpecifier",
   "ImportNamespaceSpecifier", "ImportDefaultSpecifier", "BlockStatement",
   "VariableDeclarator", "ObjectPattern", "Property", "JSXAttribute",
   "ObjectExpression", "AwaitExpression", "ArrowFunctionExpression",
   "ReturnStatement", "ArrayExpression"]

/-- The shape-predicate family, as functions on possibly-absent nodes. -/
def shapePredicates : List (Option Node → Bool) :=
  [isCallExpression, isIdentifier, isMemberExpression, isLiteral, isImportSpecifier,
   isImportNamespaceSpecifier, isImportDefaultSpecifier, isBlockStatement,
   isVariableDeclarator, isObjectPattern, isProperty, isJSXAttribute,
   isObjectExpression, isAwaitExpression, isArrowFunctionExpression,
   isReturnStatement, isArrayExpression, hasThenProperty]

/-! ## Theorems -/

/-- Claim C10: a node with no parent link makes findClosestCallNode answer
null even when the node itself is a call expression whose callee is an
identifier of the requested name (the parent check precedes the self-match
check), while findClosestCallExpressionNode on a parentless call expression
answers that node itself. -/
theorem claimC10_root_node_asymmetry (node : Node) (nm : String)
    (h : node.parent = none) :
    findClosestCallNode node nm = none ∧
      (isCallExpression (some node) = true →
        findClosestCallExpressionNode node = some node) := by
  constructor
  · rw [findClosestCallNode]
    split <;> simp_all
  · intro hc
    rw [findClosestCallExpressionNode]
    simp [hc]

/-- Witness for C10 at a concrete parentless call node. -/
theorem claimC10_witness :
    findClosestCallNode rootCallNode "doSomething" = none ∧
      findClosestCallExpressionNode rootCallNode = some rootCallNode :=
  ⟨(claimC10_root_node_asymmetry rootCallNode "doSomething" rfl).1,
   (claimC10_root_node_asymmetry rootCallNode "doSomething" rfl).2 rfl⟩

/-- Claim C9: the node-shape classifiers are total functions answering a
non-match both on an absent node and on any node whose type tag is outside
the recognized family, and hasThenProperty answers a non-match on a node
missing its property field; being Lean functions on an immutable tree they
cannot mutate it. -/
theorem claimC9_shape_predicates_total :
    (∀ p ∈ shapePredicates, p none = false) ∧
      (∀ nd : Node, nd.type ∉ recognizedTypeTags →
        ∀ p ∈ shapePredicates, p (some nd) = false) ∧
      (∀ nd : Node, nd.property = none → hasThenProperty (some nd) = false) := by
  refine ⟨?_, ?_, ?_⟩
  · intro p hp
    simp only [shapePredicates, List.mem_cons, List.not_mem_nil, or_false] at hp
    rcases hp with rfl | rfl | rfl | rfl | rfl | rfl | rfl | rfl | rfl | rfl | rfl |
      rfl | rfl | rfl | rfl | rfl | rfl | rfl <;> rfl
  · intro nd hnd p hp
    simp only [recognizedTypeTags, List.mem_cons, List.not_mem_nil, or_false,
      not_or] at hnd
    obtain ⟨h1, h2, h3, h4, h5, h6, h7, h8, h9, h10, h11, h12, h13, h14, h15,
      h16, h17⟩ := hnd
    simp only [shapePredicates, List.mem_cons, List.not_mem_nil, or_false] at hp
    rcases hp with rfl | rfl | rfl | rfl | rfl | rfl | rfl | rfl | rfl | rfl | rfl |
      rfl | rfl | rfl | rfl | rfl | rfl | rfl <;>
      simp [isCallExpression, isIdentifier, isMemberExpression, isLiteral,
        isImportSpecifier, isImportNamespaceSpecifier, isImportDefaultSpecifier,
        isBlockStatement, isVariableDeclarator, isObjectPattern, isProperty,
        isJSXAttribute, isObjectExpression, isAwaitExpression,
        isArrowFunctionExpression, isReturnStatement, isArrayExpression,
        hasThenProperty, h1, h2, h3, h4, h5, h6, h7, h8, h9, h10, h11, h12, h13,
        h14, h15, h16, h17]
  · intro nd h
    simp [hasThenProperty, h, isIdentifier]

/-- Witness for C9 at an unrecognized, field-less node. -/
theorem claimC9_witness :
    isCallExpression none = false ∧ isCallExpression (some chimeraNode) = false ∧
      hasThenProperty (some chimeraNode) = false :=
  ⟨claimC9_shape_predicates_total.1 isCallExpression
      (by simp only [shapePredicates]; exact List.mem_cons_self _ _),
   claimC9_shape_predicates_total.2.1 chimeraNode (by decide) isCallExpression
      (by simp only [shapePredicates]; exact List.mem_cons_self _ _),
   claimC9_shape_predicates_total.2.2 chimeraNode rfl⟩

/-- The concrete static declaration whose module source ends with the text
undefined. -/
def c4Node : Node := importDeclNode "module-undefined" []

/-- Claim C4 (divergence of the code from the claim): with NO custom module
configured, the declaration callback still records a declaration whose
module-source string ends with the text undefined into the customModule
slot, because String(...).endsWith(customModule) coerces the undefined
setting to that text. The claim says the slot stays Empty in every such
run. -/
theorem claimC4_unconfigured_slot_divergence :
    DetectionState.initial.importedCustomModuleNode = none ∧
      (importDeclarationCallback none DetectionState.initial
          c4Node).importedCustomModuleNode = some c4Node :=
  ⟨rfl, rfl⟩

/-- The dynamic-load call of C5: const (destructuring of render) =
require(...), recorded in the targetLib slot. -/
def c5LoadCall : Node := dynamicLoadCallNode (objectPatternNode [propertyNode "render"])

/-- The detection state of C5 with the dynamic-load call recorded. -/
def c5State : DetectionState :=
  { importedTestingLibraryNode := some c5LoadCall, importedCustomModuleNode := none }

/-- Claim C5: resolving a symbol against a destructured dynamic load returns
the KEY identifier (not the local alias) when a property key matches; but
when NO property matches, the code dereferences the failed search result and
raises a TypeError instead of answering absent as the claim requires. -/
theorem claimC5_destructured_lookup_fault :
    findImportedUtilSpecifier c5State "render" = .ok (some (identNode "render")) ∧
      findImportedUtilSpecifier c5State "cleanup" =
        .error "TypeError: reading key of undefined" :=
  ⟨rfl, rfl⟩

/-- Claim C7: findImportedUtilSpecifier selects the customModule slot when
recorded, falls back to the targetLib slot, and answers absent immediately
when both slots are empty, for every symbol name. -/
theorem claimC7_slot_selection (st : DetectionState) (nm : String) :
    (st.importedCustomModuleNode = none → st.importedTestingLibraryNode = none →
        findImportedUtilSpecifier st nm = .ok none) ∧
      (∀ c, st.importedCustomModuleNode = some c →
        findImportedUtilSpecifier st nm = findSpecifier c nm) ∧
      (st.importedCustomModuleNode = none →
        ∀ t, st.importedTestingLibraryNode = some t →
          findImportedUtilSpecifier st nm = findSpecifier t nm) := by
  refine ⟨?_, ?_, ?_⟩ <;> intros <;> simp [findImportedUtilSpecifier, *]

/-- The custom-module declaration of the C7 witness. -/
def c7CustomDecl : Node := importDeclNode "custom-utils" []

/-- The target-library declaration of the C7 witness. -/
def c7TargetDecl : Node := importDeclNode "other-testing-library" []

/-- Witness for C7 at the three concrete slot configurations. -/
theorem claimC7_witness :
    findImportedUtilSpecifier DetectionState.initial "render" = .ok none ∧
      findImportedUtilSpecifier
          { importedTestingLibraryNode := some c7TargetDecl,
            importedCustomModuleNode := some c7CustomDecl } "render" =
        findSpecifier c7CustomDecl "render" ∧
      findImportedUtilSpecifier
          { importedTestingLibraryNode := some c7TargetDecl,
            importedCustomModuleNode := none } "render" =
        findSpecifier c7TargetDecl "render" :=
  ⟨(claimC7_slot_selection DetectionState.initial "render").1 rfl rfl,
   (claimC7_slot_selection _ "render").2.1 c7CustomDecl rfl,
   (claimC7_slot_selection _ "render").2.2 rfl c7TargetDecl rfl⟩

/-- Claim C6: against a recorded static declaration, resolution returns the
first named specifier whose imported name equals the requested symbol
(keeping its whole binding, local alias included), else a namespace
specifier when one exists, else absent — with no fault in any case. -/
theorem claimC6_static_declaration_resolution (node : Node) (nm : String)
    (hdecl : node.type = "ImportDeclaration") :
    (∀ sp, node.specifiers.find? (namedImportMatch nm) = some sp →
        findSpecifier node nm = .ok (some sp)) ∧
      (node.specifiers.find? (namedImportMatch nm) = none →
        ∀ ns, node.specifiers.find?
            (fun n => isImportNamespaceSpecifier (some n)) = some ns →
          findSpecifier node nm = .ok (some ns)) ∧
      (node.specifiers.find? (namedImportMatch nm) = none →
        node.specifiers.find?
            (fun n => isImportNamespaceSpecifier (some n)) = none →
        findSpecifier node nm = .ok none) := by
  have hd : isImportDeclaration (some node) = true := by
    simp [isImportDeclaration, hdecl]
  refine ⟨?_, ?_, ?_⟩
  · intro sp hsp
    simp [findSpecifier, hd, hsp]
  · intro hn ns hns
    simp [findSpecifier, hd, hn, hns]
  · intro hn hns
    simp [findSpecifier, hd, hn, hns]

/-- The aliased named specifier of the C6 witness. -/
def c6Named : Node := importSpecifierNode "render" "doRender"

/-- The namespace specifier of the C6 witness. -/
def c6Ns : Node := namespaceSpecifierNode "rtl"

/-- Declaration with the aliased named specifier. -/
def c6DeclNamed : Node := importDeclNode "some-testing-library" [c6Named]

/-- Declaration with only a namespace specifier. -/
def c6DeclNs : Node := importDeclNode "some-testing-library" [c6Ns]

/-- Declaration with no specifiers at all. -/
def c6DeclEmpty : Node := importDeclNode "some-testing-library" []

/-- Witness for C6: the named form keeps the alias binding, the namespace
form is the fallback, and no specifier yields absent. -/
theorem claimC6_witness :
    findSpecifier c6DeclNamed "render" = .ok (some c6Named) ∧
      c6Named.localId = some (identNode "doRender") ∧
      findSpecifier c6DeclNs "render" = .ok (some c6Ns) ∧
      findSpecifier c6DeclEmpty "render" = .ok none :=
  ⟨(claimC6_static_declaration_resolution c6DeclNamed "render" rfl).1 c6Named rfl,
   rfl,
   (claimC6_static_declaration_resolution c6DeclNs "render" rfl).2.1 rfl c6Ns rfl,
   (claimC6_static_declaration_resolution c6DeclEmpty "render" rfl).2.2 rfl rfl⟩

/-- The environment of the C1 counterexample: the custom module name is
configured as the empty string, the filename pattern is left default, and
the filename passes the default pattern. -/
def c1Env : RuleEnv :=
  { customModule := some "", filenamePattern := none,
    fileName := "component.test.tsx" }

/-- Counterexample to C1 as stated: with the custom module configured as the
empty string (a present setting, hence a configured custom module) and both
slots Empty, canReportErrors is true although the claimed characterization
(importedOk iff a slot is Recorded whenever a custom module is configured)
makes it false, since the code tests JS truthiness and the empty string is
falsy. -/
theorem claimC1_counterexample :
    ¬(canReportErrors c1Env DetectionState.initial = true ↔
        ((c1Env.customModule = none ∨
            DetectionState.initial.importedTestingLibraryNode.isSome = true ∨
            DetectionState.initial.importedCustomModuleNode.isSome = true) ∧
          getIsValidFilename c1Env = true)) := by
  decide

/-- Claim C1 as amended: canReportErrors is true iff importedOk and
filenameOk both hold, where importedOk is true unconditionally whenever no
custom module is configured OR the configured name is the empty string (JS
falsiness), and otherwise is true iff at least one DetectionState slot is
Recorded. -/
theorem claimC1_gate_decision (cm : Option String) (fp : Option JSRegex)
    (fn : String) (st : DetectionState) :
    canReportErrors { customModule := cm, filenamePattern := fp, fileName := fn }
        st = true ↔
      ((cm = none ∨ cm = some "" ∨
          st.importedTestingLibraryNode.isSome = true ∨
          st.importedCustomModuleNode.isSome = true) ∧
        getIsValidFilename
          { customModule := cm, filenamePattern := fp, fileName := fn } = true) := by
  simp only [canReportErrors, Bool.and_eq_true]
  refine and_congr ?_ Iff.rfl
  cases cm with
  | none => simp [getIsTestingLibraryImported, jsTruthyOptStr]
  | some s =>
    by_cases hs : s = ""
    · subst hs
      simp [getIsTestingLibraryImported, jsTruthyOptStr]
    · simp [getIsTestingLibraryImported, jsTruthyOptStr, hs,
        Bool.or_eq_true]

/-- Claim C8: with no filename pattern configured the default pattern
accepts component.test.tsx and rejects component.tsx; and a configured
pattern without anchors is matched as an unanchored search — the gate is
true exactly when SOME substring of the filename matches the pattern
body. -/
theorem claimC8_filename_gate :
    getIsValidFilename
        { customModule := none, filenamePattern := none,
          fileName := "component.test.tsx" } = true ∧
      getIsValidFilename
        { customModule := none, filenamePattern := none,
          fileName := "component.tsx" } = false ∧
      (∀ (body : Regex) (cm : Option String) (fn : String),
        getIsValidFilename
            { customModule := cm,
              filenamePattern := some { ancStart := false, ancEnd := false,
                                        body := body },
              fileName := fn } = true ↔
          ∃ pre mid post, fn.data = pre ++ mid ++ post ∧
            rmatch body mid = true) := by
  refine ⟨by decide, by decide, ?_⟩
  intro body cm fn
  simp only [getIsValidFilename, resolvedFilenamePattern, Option.getD_some,
    jsStringMatch, Bool.false_eq_true, if_false, List.any_eq_true]
  constructor
  · rintro ⟨t, ht, u, hu, hm⟩
    obtain ⟨pre, hpre⟩ := (List.mem_tails _ _).mp ht
    obtain ⟨post, hpost⟩ := (List.mem_inits _ _).mp hu
    exact ⟨pre, u, post, by rw [← hpre, ← hpost, List.append_assoc], hm⟩
  · rintro ⟨pre, mid, post, hdecomp, hm⟩
    refine ⟨mid ++ post, ?_, mid, ?_, hm⟩
    · exact (List.mem_tails _ _).mpr ⟨pre, by rw [← List.append_assoc, ← hdecomp]⟩
    · exact (List.mem_inits _ _).mpr ⟨post, rfl⟩

/-- The declaration callback never overwrites a recorded slot. -/
theorem importDeclarationCallback_preserves (cm : Option String)
    (st : DetectionState) (node : Node) :
    (∀ n, st.importedTestingLibraryNode = some n →
        (importDeclarationCallback cm st node).importedTestingLibraryNode =
          some n) ∧
      (∀ n, st.importedCustomModuleNode = some n →
        (importDeclarationCallback cm st node).importedCustomModuleNode =
          some n) := by
  constructor
  · intro n h
    simp only [importDeclarationCallback, h]
    split <;> split <;> simp_all
  · intro n h
    simp only [importDeclarationCallback, h]
    split <;> simp_all

/-- The require callback never overwrites a recorded slot. -/
theorem requireCallback_preserves (cm : Option String)
    (st : DetectionState) (node : Node) :
    (∀ n, st.importedTestingLibraryNode = some n →
        (requireCallback cm st node).importedTestingLibraryNode = some n) ∧
      (∀ n, st.importedCustomModuleNode = some n →
        (requireCallback cm st node).importedCustomModuleNode = some n) := by
  constructor
  · intro n h
    simp only [requireCallback, h]
    split <;> split <;> simp_all
  · intro n h
    simp only [requireCallback, h]
    split <;> simp_all

/-- One dispatched traversal event never overwrites a recorded slot. -/
theorem applyDetection_preserves (cm : Option String) (st : DetectionState)
    (ev : String × Node) :
    (∀ n, st.importedTestingLibraryNode = some n →
        (applyDetection cm st ev).importedTestingLibraryNode = some n) ∧
      (∀ n, st.importedCustomModuleNode = some n →
        (applyDetection cm st ev).importedCustomModuleNode = some n) := by
  unfold applyDetection lookupTable detectionInstructions
  simp only [List.find?]
  by_cases h1 : (("ImportDeclaration" : String) == ev.fst) = true
  · simp only [h1]
    exact importDeclarationCallback_preserves cm st ev.snd
  · simp only [h1]
    by_cases h2 :
        (("CallExpression > Identifier[name=\"require\"]" : String) == ev.fst)
          = true
    · simp only [Bool.false_eq_true, h2]
      exact requireCallback_preserves cm st ev.snd
    · simp only [Bool.false_eq_true, h2]
      exact ⟨fun n h => h, fun n h => h⟩

/-- A whole traversal never overwrites a recorded slot. -/
theorem runDetection_preserves (cm : Option String)
    (evs : List (String × Node)) (st : DetectionState) :
    (∀ n, st.importedTestingLibraryNode = some n →
        (runDetection cm st evs).importedTestingLibraryNode = some n) ∧
      (∀ n, st.importedCustomModuleNode = some n →
        (runDetection cm st evs).importedCustomModuleNode = some n) := by
  induction evs generalizing st with
  | nil => exact ⟨fun n h => h, fun n h => h⟩
  | cons e es ih =>
    constructor
    · intro n h
      exact (ih (applyDetection cm st e)).1 n
        ((applyDetection_preserves cm st e).1 n h)
    · intro n h
      exact (ih (applyDetection cm st e)).2 n
        ((applyDetection_preserves cm st e).2 n h)

/-- Claim C3: first match wins — a slot once Recorded keeps the very same
node through the rest of the traversal (later matching declarations or
dynamic-load calls are ignored, for both slots), and the targetLib slot is
Recorded by a declaration whose module source contains the target-library
marker when the slot is still Empty. -/
theorem claimC3_first_match_wins (cm : Option String)
    (evs : List (String × Node)) (st : DetectionState) :
    (∀ n, st.importedTestingLibraryNode = some n →
        (runDetection cm st evs).importedTestingLibraryNode = some n) ∧
      (∀ n, st.importedCustomModuleNode = some n →
        (runDetection cm st evs).importedCustomModuleNode = some n) ∧
      (∀ node, st.importedTestingLibraryNode = none →
        stringIncludes (jsToString (sourceValueJS node)) "testing-library"
          = true →
        (importDeclarationCallback cm st node).importedTestingLibraryNode =
          some node) := by
  refine ⟨(runDetection_preserves cm evs st).1,
    (runDetection_preserves cm evs st).2, ?_⟩
  intro node h hm
  simp only [importDeclarationCallback, h, hm]
  split <;> split <;> simp_all

/-- First matching declaration of the C3 witness. -/
def c3DeclA : Node := importDeclNode "first-testing-library" []

/-- Second, different matching declaration of the C3 witness. -/
def c3DeclB : Node := importDeclNode "second-testing-library" []

/-- Witness for C3: with the first declaration already recorded, running the
traversal over a second matching declaration leaves the slot holding the
first node; and a matching declaration records itself from Empty. -/
theorem claimC3_witness :
    stringIncludes (jsToString (sourceValueJS c3DeclB)) "testing-library"
        = true ∧
      (runDetection none
          { importedTestingLibraryNode := some c3DeclA,
            importedCustomModuleNode := none }
          [("ImportDeclaration", c3DeclB)]).importedTestingLibraryNode =
        some c3DeclA ∧
      (importDeclarationCallback none DetectionState.initial
          c3DeclA).importedTestingLibraryNode = some c3DeclA :=
  ⟨by decide,
   (claimC3_first_match_wins none [("ImportDeclaration", c3DeclB)]
      { importedTestingLibraryNode := some c3DeclA,
        importedCustomModuleNode := none }).1 c3DeclA rfl,
   (claimC3_first_match_wins none [] DetectionState.initial).2.2 c3DeclA rfl
      (by decide)⟩

/-- Membership is invariant under the insertion-order dedup of a JS Set. -/
theorem mem_insertionDedup (l : List String) (k : String) :
    k ∈ insertionDedup l ↔ k ∈ l := by
  induction l with
  | nil => simp [insertionDedup]
  | cons a as ih =>
    simp only [insertionDedup, List.mem_cons, List.mem_filter]
    constructor
    · rintro (rfl | ⟨h1, _⟩)
      · exact Or.inl rfl
      · exact Or.inr (ih.mp h1)
    · rintro (rfl | h)
      · exact Or.inl rfl
      · by_cases hk : k = a
        · exact Or.inl hk
        · exact Or.inr ⟨ih.mpr h, by simp [hk]⟩

/-- A table lookup succeeds exactly when the key is among the table keys. -/
theorem lookupTable_isSome {α : Type} (tbl : List (String × α)) (k : String) :
    (lookupTable tbl k).isSome = true ↔ k ∈ tbl.map Prod.fst := by
  induction tbl with
  | nil => simp [lookupTable]
  | cons e es ih =>
    simp only [lookupTable, List.find?, List.map_cons, List.mem_cons]
    by_cases h : (e.fst == k) = true
    · have he : e.fst = k := by simp at h; exact h
      simp [h, he]
    · have he : ¬k = e.fst := fun hh => h (by simp [hh])
      simp only [h, Bool.false_eq_true]
      simpa [lookupTable, he] using ih

/-- Lookup in a table built by mapping a function over a key list. -/
theorem lookupTable_map_self {α : Type} (keys : List String) (f : String → α)
    (k : String) :
    lookupTable (keys.map (fun x => (x, f x))) k =
      if k ∈ keys then some (f k) else none := by
  induction keys with
  | nil => simp [lookupTable]
  | cons a as ih =>
    simp only [List.map_cons, lookupTable, List.find?, List.mem_cons]
    by_cases h : (a == k) = true
    · have ha : a = k := by simpa using h
      simp [h, ha]
    · have ha : ¬k = a := fun hh => h (by simp [hh])
      simp only [h, Bool.false_eq_true, ha, false_or]
      simpa [lookupTable] using ih

/-- Claim C2: the merged table covers exactly the union of the two key
sets; the merged callback of a key first runs the detection callback when
present, then consults the gate on the state as mutated by that very
callback, and only on a true gate runs and returns the rule callback; in
particular a detection-side state mutation opens the gate for the rule
callback within the same node visit. -/
theorem claimC2_visitor_merger {ρ : Type} (env : RuleEnv)
    (det : List (String × (DetectionState → Node → DetectionState)))
    (rule : List (String × (Node → ρ))) (k : String) :
    ((lookupTable (enhancedRuleInstructions env det rule) k).isSome = true ↔
        ((lookupTable det k).isSome = true ∨
          (lookupTable rule k).isSome = true)) ∧
      ((lookupTable det k).isSome = true ∨ (lookupTable rule k).isSome = true →
        lookupTable (enhancedRuleInstructions env det rule) k =
          some (mergedCallback env det rule k)) ∧
      (∀ st node,
        mergedCallback env det rule k st node =
          ((lookupTable det k).elim st (fun dcb => dcb st node),
            if canReportErrors env
                ((lookupTable det k).elim st (fun dcb => dcb st node)) = true
            then (lookupTable rule k).map (fun rcb => rcb node)
            else none)) ∧
      (∀ dcb rcb st node,
        lookupTable det k = some dcb → lookupTable rule k = some rcb →
        canReportErrors env (dcb st node) = true →
        mergedCallback env det rule k st node = (dcb st node, some (rcb node)))
    := by
  have hkeys : lookupTable (enhancedRuleInstructions env det rule) k =
      if k ∈ mergedKeys det rule then some (mergedCallback env det rule k)
      else none := by
    simpa [enhancedRuleInstructions] using
      lookupTable_map_self (mergedKeys det rule) (mergedCallback env det rule) k
  have hmem : k ∈ mergedKeys det rule ↔
      ((lookupTable det k).isSome = true ∨
        (lookupTable rule k).isSome = true) := by
    rw [mergedKeys, mem_insertionDedup, List.mem_append,
      ← lookupTable_isSome det k, ← lookupTable_isSome rule k]
  refine ⟨?_, ?_, ?_, ?_⟩
  · rw [hkeys]
    by_cases hk : k ∈ mergedKeys det rule
    · simpa [hk] using hmem.mp hk
    · simp only [hk, if_false, Option.isSome_none, Bool.false_eq_true,
        false_iff]
      exact fun hc => hk (hmem.mpr hc)
  · intro hc
    rw [hkeys, if_pos (hmem.mpr hc)]
  · intro st node
    simp only [mergedCallback]
    cases lookupTable det k <;> cases lookupTable rule k <;>
      simp <;> split <;> simp
  · intro dcb rcb st node hd hr hg
    simp [mergedCallback, hd, hr, hg]

/-- Environment of the C2 witness: custom module my-utils, default filename
pattern, matching filename. -/
def c2Env : RuleEnv :=
  { customModule := some "my-utils", filenamePattern := none,
    fileName := "component.test.tsx" }

/-- The declaration visited in the C2 witness: an import of my-utils. -/
def c2Node : Node := importDeclNode "my-utils" []

/-- The rule callback table of the C2 witness. -/
def c2Rule : List (String × (Node → Nat)) := [("ImportDeclaration", fun _ => 1)]

/-- Witness for C2: before the visit the gate is closed; the detection
callback for the same key records the custom module, the gate check made
right after it inside the same merged callback sees the mutation, and the
rule callback runs and its result is passed through. -/
theorem claimC2_witness :
    canReportErrors c2Env DetectionState.initial = false ∧
      canReportErrors c2Env
        (importDeclarationCallback (some "my-utils") DetectionState.initial
          c2Node) = true ∧
      mergedCallback c2Env (detectionInstructions (some "my-utils")) c2Rule
          "ImportDeclaration" DetectionState.initial c2Node =
        (importDeclarationCallback (some "my-utils") DetectionState.initial
            c2Node, some 1) :=
  ⟨by decide, by decide,
   (claimC2_visitor_merger c2Env (detectionInstructions (some "my-utils"))
        c2Rule "ImportDeclaration").2.2.2
      (importDeclarationCallback (some "my-utils")) (fun _ => 1)
      DetectionState.initial c2Node rfl rfl (by decide)⟩
